import Mathlib

/-!
Shallow embedding of the clock system controllers of the SJSU-Dev2 HAL:
the STM32F10x controller (stm32f10x namespace) and the MSP432P401R
controller (msp432p401r namespace).  Frequencies are natural numbers of
hertz with truncating integer division; registers are 32-bit words
represented as natural numbers; a fatal assertion is represented by an
Option result of none; register mutations of the MSP432P401R family are
additionally recorded in an explicit write trace.
-/

/-- Peripheral identity: an opaque integer identity unique per
peripheral or clock domain (sjsu::SystemController::PeripheralID). -/
structure PeripheralID where
  device_id : Nat
deriving DecidableEq, Repr

namespace bit

/-- A register bit-field given by its starting bit position and width. -/
structure Mask where
  position : Nat
  width : Nat
deriving DecidableEq, Repr

/-- Modelled from the spec: registers are subdivided into named
bit-fields (a position and width pair); the bit manipulation utility
(utility/bit.hpp) is not among the given sources.  Builds the mask for
the inclusive bit range low..high. -/
def CreateMaskFromRange (low high : Nat) : Mask :=
  ⟨low, high - low + 1⟩

/-- All ones in a 32-bit register word. -/
def kRegisterMax : Nat := 2 ^ 32 - 1

/-- Modelled from the spec: write a value into a bit-field of a 32-bit
register word, leaving the other bits unchanged. -/
def Insert (target value : Nat) (m : Mask) : Nat :=
  (target &&& (kRegisterMax ^^^ ((2 ^ m.width - 1) <<< m.position))) |||
    ((value &&& (2 ^ m.width - 1)) <<< m.position)

/-- Modelled from the spec: set the single bit at a given position. -/
def SetPos (target pos : Nat) : Nat := target ||| (1 <<< pos)

/-- Modelled from the spec: clear the single bit at a given position of
a 32-bit register word. -/
def ClearPos (target pos : Nat) : Nat :=
  target &&& (kRegisterMax ^^^ (1 <<< pos))

/-- Modelled from the spec: read the single bit at a given position. -/
def ReadPos (target pos : Nat) : Bool := target.testBit pos

/-- Set the bit at the position of a mask. -/
def Set (target : Nat) (m : Mask) : Nat := SetPos target m.position

/-- Clear the bit at the position of a mask. -/
def Clear (target : Nat) (m : Mask) : Nat := ClearPos target m.position

/-- Read the bit at the position of a mask. -/
def Read (target : Nat) (m : Mask) : Bool := ReadPos target m.position

/-- Extract the value held by a bit-field. -/
def Extract (target : Nat) (m : Mask) : Nat :=
  (target >>> m.position) &&& (2 ^ m.width - 1)

end bit

namespace stm32f10x

/-- Number of bits between each enable register. -/
def kBits : Nat := 32

namespace Peripherals

/-- Bit position of AHB. -/
def kAHB : Nat := kBits * 0

def kDma1 : PeripheralID := ⟨kAHB + 0⟩
def kDma2 : PeripheralID := ⟨kAHB + 1⟩
def kSram : PeripheralID := ⟨kAHB + 2⟩
def kFlitf : PeripheralID := ⟨kAHB + 4⟩
def kCrc : PeripheralID := ⟨kAHB + 6⟩
def kFsmc : PeripheralID := ⟨kAHB + 8⟩
def kSdio : PeripheralID := ⟨kAHB + 10⟩

/-- Bit position of APB1. -/
def kAPB1 : Nat := kBits * 1

def kTimer2 : PeripheralID := ⟨kAPB1 + 0⟩
def kTimer3 : PeripheralID := ⟨kAPB1 + 1⟩
def kTimer4 : PeripheralID := ⟨kAPB1 + 2⟩
def kTimer5 : PeripheralID := ⟨kAPB1 + 3⟩
def kTimer6 : PeripheralID := ⟨kAPB1 + 4⟩
def kTimer7 : PeripheralID := ⟨kAPB1 + 5⟩
def kTimer12 : PeripheralID := ⟨kAPB1 + 6⟩
def kTimer13 : PeripheralID := ⟨kAPB1 + 7⟩
def kTimer14 : PeripheralID := ⟨kAPB1 + 8⟩
def kWindowWatchdog : PeripheralID := ⟨kAPB1 + 11⟩
def kSpi2 : PeripheralID := ⟨kAPB1 + 14⟩
def kSpi3 : PeripheralID := ⟨kAPB1 + 15⟩
def kUsart2 : PeripheralID := ⟨kAPB1 + 17⟩
def kUsart3 : PeripheralID := ⟨kAPB1 + 18⟩
def kUart4 : PeripheralID := ⟨kAPB1 + 19⟩
def kUart5 : PeripheralID := ⟨kAPB1 + 20⟩
def kI2c1 : PeripheralID := ⟨kAPB1 + 21⟩
def kI2c2 : PeripheralID := ⟨kAPB1 + 22⟩
def kUsb : PeripheralID := ⟨kAPB1 + 23⟩
def kCan1 : PeripheralID := ⟨kAPB1 + 25⟩
def kBackupClock : PeripheralID := ⟨kAPB1 + 27⟩
def kPower : PeripheralID := ⟨kAPB1 + 28⟩
def kDac : PeripheralID := ⟨kAPB1 + 29⟩

/-- Bit position of APB2. -/
def kAPB2 : Nat := kBits * 2

def kAFIO : PeripheralID := ⟨kAPB2 + 0⟩
def kGpioA : PeripheralID := ⟨kAPB2 + 2⟩
def kGpioB : PeripheralID := ⟨kAPB2 + 3⟩
def kGpioC : PeripheralID := ⟨kAPB2 + 4⟩
def kGpioD : PeripheralID := ⟨kAPB2 + 5⟩
def kGpioE : PeripheralID := ⟨kAPB2 + 6⟩
def kGpioF : PeripheralID := ⟨kAPB2 + 7⟩
def kGpioG : PeripheralID := ⟨kAPB2 + 8⟩
def kAdc1 : PeripheralID := ⟨kAPB2 + 9⟩
def kAdc2 : PeripheralID := ⟨kAPB2 + 10⟩
def kTimer1 : PeripheralID := ⟨kAPB2 + 11⟩
def kSpi1 : PeripheralID := ⟨kAPB2 + 12⟩
def kTimer8 : PeripheralID := ⟨kAPB2 + 13⟩
def kUsart1 : PeripheralID := ⟨kAPB2 + 14⟩
def kAdc3 : PeripheralID := ⟨kAPB2 + 15⟩
def kTimer9 : PeripheralID := ⟨kAPB2 + 19⟩
def kTimer10 : PeripheralID := ⟨kAPB2 + 20⟩
def kTimer11 : PeripheralID := ⟨kAPB2 + 21⟩

/-- Bit position of systems outside of any bus. -/
def kBeyond : Nat := kBits * 3

def kCpu : PeripheralID := ⟨kBeyond + 0⟩
def kSystemTimer : PeripheralID := ⟨kBeyond + 1⟩
def kI2s : PeripheralID := ⟨kBeyond + 2⟩

end Peripherals

/-- Available dividers for the APB bus. -/
inductive APBDivider
  | kDivideBy1
  | kDivideBy2
  | kDivideBy4
  | kDivideBy8
  | kDivideBy16
deriving DecidableEq, Repr

/-- Stored register selector code of an APB divider. -/
def APBDivider.val : APBDivider → Nat
  | .kDivideBy1 => 0
  | .kDivideBy2 => 0b100
  | .kDivideBy4 => 0b101
  | .kDivideBy8 => 0b110
  | .kDivideBy16 => 0b111

/-- Available dividers for the AHB bus. -/
inductive AHBDivider
  | kDivideBy1
  | kDivideBy2
  | kDivideBy4
  | kDivideBy8
  | kDivideBy16
  | kDivideBy64
  | kDivideBy128
  | kDivideBy256
  | kDivideBy512
deriving DecidableEq, Repr

/-- Stored register selector code of an AHB divider. -/
def AHBDivider.val : AHBDivider → Nat
  | .kDivideBy1 => 0
  | .kDivideBy2 => 0b1000
  | .kDivideBy4 => 0b1001
  | .kDivideBy8 => 0b1010
  | .kDivideBy16 => 0b1011
  | .kDivideBy64 => 0b1100
  | .kDivideBy128 => 0b1101
  | .kDivideBy256 => 0b1110
  | .kDivideBy512 => 0b1111

/-- Available dividers for the ADC bus. -/
inductive AdcDivider
  | kDivideBy2
  | kDivideBy4
  | kDivideBy6
  | kDivideBy8
deriving DecidableEq, Repr

/-- Stored register selector code of an ADC divider. -/
def AdcDivider.val : AdcDivider → Nat
  | .kDivideBy2 => 0b00
  | .kDivideBy4 => 0b01
  | .kDivideBy6 => 0b10
  | .kDivideBy8 => 0b11

/-- Available clock sources for the system clock. -/
inductive SystemClockSelect
  | kHighSpeedInternal
  | kHighSpeedExternal
  | kPll
deriving DecidableEq, Repr

/-- Stored register selector code of a system clock source. -/
def SystemClockSelect.val : SystemClockSelect → Nat
  | .kHighSpeedInternal => 0b00
  | .kHighSpeedExternal => 0b01
  | .kPll => 0b10

namespace ClockConfigurationRegisters

/-! Bit masks for the CFGR register. -/

def kMco : bit.Mask := bit.CreateMaskFromRange 24 26
def kUsbPrescalar : bit.Mask := bit.CreateMaskFromRange 22 22
def kPllMul : bit.Mask := bit.CreateMaskFromRange 18 21
def kHsePreDivider : bit.Mask := bit.CreateMaskFromRange 17 17
def kPllSource : bit.Mask := bit.CreateMaskFromRange 16 16
def kAdcDivider : bit.Mask := bit.CreateMaskFromRange 14 15
def kAPB2Divider : bit.Mask := bit.CreateMaskFromRange 11 13
def kAPB1Divider : bit.Mask := bit.CreateMaskFromRange 8 10
def kAHBDivider : bit.Mask := bit.CreateMaskFromRange 4 7
def kSystemClockStatus : bit.Mask := bit.CreateMaskFromRange 2 3
def kSystemClockSelect : bit.Mask := bit.CreateMaskFromRange 0 1

end ClockConfigurationRegisters

namespace ClockControlRegisters

/-! Bit masks for the CR register. -/

def kPllReady : bit.Mask := bit.CreateMaskFromRange 25 25
def kPllEnable : bit.Mask := bit.CreateMaskFromRange 24 24
def kExternalOscReady : bit.Mask := bit.CreateMaskFromRange 17 17
def kExternalOscEnable : bit.Mask := bit.CreateMaskFromRange 16 16

end ClockControlRegisters

/-- PLL frequency multiplication options. -/
inductive PllMultiply
  | kMultiplyBy2
  | kMultiplyBy3
  | kMultiplyBy4
  | kMultiplyBy5
  | kMultiplyBy6
  | kMultiplyBy7
  | kMultiplyBy8
  | kMultiplyBy9
  | kMultiplyBy10
  | kMultiplyBy11
  | kMultiplyBy12
  | kMultiplyBy13
  | kMultiplyBy14
  | kMultiplyBy15
  | kMultiplyBy16
deriving DecidableEq, Repr

/-- Stored register selector code of a PLL multiplier. -/
def PllMultiply.val : PllMultiply → Nat
  | .kMultiplyBy2 => 0b0000
  | .kMultiplyBy3 => 0b0001
  | .kMultiplyBy4 => 0b0010
  | .kMultiplyBy5 => 0b0011
  | .kMultiplyBy6 => 0b0100
  | .kMultiplyBy7 => 0b0101
  | .kMultiplyBy8 => 0b0110
  | .kMultiplyBy9 => 0b0111
  | .kMultiplyBy10 => 0b1000
  | .kMultiplyBy11 => 0b1001
  | .kMultiplyBy12 => 0b1010
  | .kMultiplyBy13 => 0b1011
  | .kMultiplyBy14 => 0b1100
  | .kMultiplyBy15 => 0b1101
  | .kMultiplyBy16 => 0b1110

namespace RtcRegisters

/-! Bit masks for the BDCR register. -/

def kBackupDomainReset : bit.Mask := bit.CreateMaskFromRange 16 16
def kRtcEnable : bit.Mask := bit.CreateMaskFromRange 15 15
def kRtcSourceSelect : bit.Mask := bit.CreateMaskFromRange 8 9
def kLowSpeedOscReady : bit.Mask := bit.CreateMaskFromRange 1 1
def kLowSpeedOscEnable : bit.Mask := bit.CreateMaskFromRange 0 0

end RtcRegisters

/-- Available clock sources for the RTC. -/
inductive RtcSource
  | kNoClock
  | kLowSpeedInternal
  | kLowSpeedExternal
  | kHighSpeedExternalDividedBy128
deriving DecidableEq, Repr

/-- Stored register selector code of an RTC clock source. -/
def RtcSource.val : RtcSource → Nat
  | .kNoClock => 0b00
  | .kLowSpeedInternal => 0b01
  | .kLowSpeedExternal => 0b10
  | .kHighSpeedExternalDividedBy128 => 0b11

/-- Available clock sources for the PLL. -/
inductive PllSource
  | kHighSpeedInternal
  | kHighSpeedExternal
  | kHighSpeedExternalDividedBy2
deriving DecidableEq, Repr

/-- Stored register selector code of a PLL clock source. -/
def PllSource.val : PllSource → Nat
  | .kHighSpeedInternal => 0b0
  | .kHighSpeedExternal => 0b1
  | .kHighSpeedExternalDividedBy2 => 0b11

/-- Available dividers for the USB peripheral. -/
inductive UsbDivider
  | kDivideBy1
  | kDivideBy1Point5
deriving DecidableEq, Repr

/-- Stored register selector code of the USB divider. -/
def UsbDivider.val : UsbDivider → Nat
  | .kDivideBy1 => 1
  | .kDivideBy1Point5 => 0

/-- PLL USB sub-configuration. -/
structure UsbConfig where
  divider : UsbDivider := UsbDivider.kDivideBy1Point5
deriving DecidableEq, Repr

/-- PLL sub-configuration. -/
structure PllConfig where
  enable : Bool := false
  source : PllSource := PllSource.kHighSpeedInternal
  multiply : PllMultiply := PllMultiply.kMultiplyBy2
  usb : UsbConfig := {}
deriving DecidableEq, Repr

/-- RTC sub-configuration. -/
structure RtcConfig where
  enable : Bool := false
  source : RtcSource := RtcSource.kLowSpeedInternal
deriving DecidableEq, Repr

/-- ADC divider sub-configuration. -/
structure AdcConfig where
  divider : AdcDivider := AdcDivider.kDivideBy2
deriving DecidableEq, Repr

/-- APB1 divider sub-configuration. -/
structure Apb1Config where
  divider : APBDivider := APBDivider.kDivideBy1
deriving DecidableEq, Repr

/-- APB2 divider sub-configuration. -/
structure Apb2Config where
  divider : APBDivider := APBDivider.kDivideBy1
  adc : AdcConfig := {}
deriving DecidableEq, Repr

/-- AHB divider sub-configuration with the nested APB buses. -/
structure AhbConfig where
  divider : AHBDivider := AHBDivider.kDivideBy1
  apb1 : Apb1Config := {}
  apb2 : Apb2Config := {}
deriving DecidableEq, Repr

/-- Clock configuration of the stm32f10x clock tree. -/
structure ClockConfiguration where
  high_speed_external : Nat := 0
  low_speed_external : Nat := 0
  pll : PllConfig := {}
  system_clock : SystemClockSelect := SystemClockSelect.kHighSpeedInternal
  rtc : RtcConfig := {}
  ahb : AhbConfig := {}
deriving DecidableEq, Repr

/-- Frequency of the low speed internal oscillator in hertz. -/
def kLowSpeedInternal : Nat := 20000

/-- Frequency of the high speed internal oscillator in hertz. -/
def kHighSpeedInternal : Nat := 8000000

/-- The clock control and flash registers touched by Initialize. -/
structure Registers where
  CR : Nat
  CFGR : Nat
  BDCR : Nat
  ACR : Nat
deriving DecidableEq, Repr

/-- The derived clock rate table retained after Initialize. -/
structure ClockRates where
  rtc_clock_rate : Nat
  usb_clock_rate : Nat
  pll_clock_rate : Nat
  ahb_clock_rate : Nat
  apb1_clock_rate : Nat
  apb2_clock_rate : Nat
  timer_apb1_clock_rate : Nat
  timer_apb2_clock_rate : Nat
  adc_clock_rate : Nat
deriving DecidableEq, Repr

/-- The staged initialization sequence of the stm32f10x controller.
Busy-wait loops on hardware ready flags only read status bits and are
modelled as performing no mutation. -/
def Initialize (config : ClockConfiguration) (regs : Registers) :
    Registers × ClockRates :=
  -- Step 1: select the internal clock source and reset the RTC domain.
  let cfgr := bit.Insert regs.CFGR
    (SystemClockSelect.val SystemClockSelect.kHighSpeedInternal)
    ClockConfigurationRegisters.kSystemClockSelect
  let bdcr := bit.Set regs.BDCR RtcRegisters.kBackupDomainReset
  let bdcr := bit.Clear bdcr RtcRegisters.kBackupDomainReset
  -- Step 2: disable the PLL and the external oscillators.
  let cr := bit.Clear regs.CR ClockControlRegisters.kPllEnable
  let cr := bit.Clear cr ClockControlRegisters.kExternalOscEnable
  -- Step 3: enable the requested external oscillators.
  let cr := if config.high_speed_external ≠ 0 then
    bit.Set cr ClockControlRegisters.kExternalOscEnable else cr
  let bdcr := if config.low_speed_external ≠ 0 then
    bit.Insert bdcr 1 RtcRegisters.kLowSpeedOscEnable else bdcr
  -- Step 4: set the oscillator source of the PLL.
  let cfgr := if config.pll.source = PllSource.kHighSpeedExternalDividedBy2
    then bit.Set cfgr ClockConfigurationRegisters.kHsePreDivider
    else bit.Clear cfgr ClockConfigurationRegisters.kHsePreDivider
  let cfgr := bit.Insert cfgr (PllSource.val config.pll.source)
    ClockConfigurationRegisters.kPllSource
  -- Step 5: set up the PLL and enable it where necessary.
  let cfgr := if config.pll.enable then
    bit.Insert cfgr (PllMultiply.val config.pll.multiply)
      ClockConfigurationRegisters.kPllMul else cfgr
  let cr := if config.pll.enable then
    bit.Set cr ClockControlRegisters.kPllEnable else cr
  let pll_clock_rate :=
    if config.pll.enable then
      (match config.pll.source with
        | PllSource.kHighSpeedInternal => kHighSpeedInternal / 2
        | PllSource.kHighSpeedExternal => config.high_speed_external
        | PllSource.kHighSpeedExternalDividedBy2 =>
            config.high_speed_external / 2) *
        (PllMultiply.val config.pll.multiply + 2)
    else 0
  -- Step 6: set up the peripheral dividers.
  let cfgr := bit.Insert cfgr (UsbDivider.val config.pll.usb.divider)
    ClockConfigurationRegisters.kUsbPrescalar
  let cfgr := bit.Insert cfgr (AHBDivider.val config.ahb.divider)
    ClockConfigurationRegisters.kAHBDivider
  let cfgr := bit.Insert cfgr (APBDivider.val config.ahb.apb1.divider)
    ClockConfigurationRegisters.kAPB1Divider
  let cfgr := bit.Insert cfgr (APBDivider.val config.ahb.apb2.divider)
    ClockConfigurationRegisters.kAPB2Divider
  let cfgr := bit.Insert cfgr (AdcDivider.val config.ahb.apb2.adc.divider)
    ClockConfigurationRegisters.kAdcDivider
  -- Step 7: set the flash wait states, the system clock and the RTC clock.
  let acr :=
    if config.system_clock = SystemClockSelect.kPll then
      if pll_clock_rate ≤ 24000000 then
        bit.Insert regs.ACR 0b000 (bit.CreateMaskFromRange 0 2)
      else if 24000000 ≤ pll_clock_rate ∧ pll_clock_rate ≤ 48000000 then
        bit.Insert regs.ACR 0b001 (bit.CreateMaskFromRange 0 2)
      else
        bit.Insert regs.ACR 0b010 (bit.CreateMaskFromRange 0 2)
    else regs.ACR
  let cfgr := bit.Insert cfgr (SystemClockSelect.val config.system_clock)
    ClockConfigurationRegisters.kSystemClockSelect
  let system_clock :=
    match config.system_clock with
    | SystemClockSelect.kHighSpeedInternal => kHighSpeedInternal
    | SystemClockSelect.kHighSpeedExternal => config.high_speed_external
    | SystemClockSelect.kPll => pll_clock_rate
  let bdcr := bit.Insert bdcr (RtcSource.val config.rtc.source)
    RtcRegisters.kRtcSourceSelect
  let bdcr := bit.Insert bdcr (if config.rtc.enable then 1 else 0)
    RtcRegisters.kRtcEnable
  -- Step 8: define the clock rates of the system.
  let ahb_clock_rate :=
    match config.ahb.divider with
    | AHBDivider.kDivideBy1 => system_clock / 1
    | AHBDivider.kDivideBy2 => system_clock / 2
    | AHBDivider.kDivideBy4 => system_clock / 4
    | AHBDivider.kDivideBy8 => system_clock / 8
    | AHBDivider.kDivideBy16 => system_clock / 16
    | AHBDivider.kDivideBy64 => system_clock / 64
    | AHBDivider.kDivideBy128 => system_clock / 128
    | AHBDivider.kDivideBy256 => system_clock / 256
    | AHBDivider.kDivideBy512 => system_clock / 512
  let apb1_clock_rate :=
    match config.ahb.apb1.divider with
    | APBDivider.kDivideBy1 => ahb_clock_rate / 1
    | APBDivider.kDivideBy2 => ahb_clock_rate / 2
    | APBDivider.kDivideBy4 => ahb_clock_rate / 4
    | APBDivider.kDivideBy8 => ahb_clock_rate / 8
    | APBDivider.kDivideBy16 => ahb_clock_rate / 16
  let apb2_clock_rate :=
    match config.ahb.apb2.divider with
    | APBDivider.kDivideBy1 => ahb_clock_rate / 1
    | APBDivider.kDivideBy2 => ahb_clock_rate / 2
    | APBDivider.kDivideBy4 => ahb_clock_rate / 4
    | APBDivider.kDivideBy8 => ahb_clock_rate / 8
    | APBDivider.kDivideBy16 => ahb_clock_rate / 16
  let rtc_clock_rate :=
    match config.rtc.source with
    | RtcSource.kNoClock => 0
    | RtcSource.kLowSpeedInternal => kLowSpeedInternal
    | RtcSource.kLowSpeedExternal => config.low_speed_external
    | RtcSource.kHighSpeedExternalDividedBy128 =>
        config.high_speed_external / 128
  let usb_clock_rate :=
    match config.pll.usb.divider with
    | UsbDivider.kDivideBy1 => pll_clock_rate
    | UsbDivider.kDivideBy1Point5 => (pll_clock_rate * 2) / 3
  let timer_apb1_clock_rate :=
    match config.ahb.apb1.divider with
    | APBDivider.kDivideBy1 => apb1_clock_rate
    | _ => apb1_clock_rate * 2
  let timer_apb2_clock_rate :=
    match config.ahb.apb2.divider with
    | APBDivider.kDivideBy1 => apb2_clock_rate
    | _ => apb2_clock_rate * 2
  let adc_clock_rate :=
    match config.ahb.apb2.adc.divider with
    | AdcDivider.kDivideBy2 => apb2_clock_rate / 2
    | AdcDivider.kDivideBy4 => apb2_clock_rate / 4
    | AdcDivider.kDivideBy6 => apb2_clock_rate / 6
    | AdcDivider.kDivideBy8 => apb2_clock_rate / 8
  (⟨cr, cfgr, bdcr, acr⟩,
   ⟨rtc_clock_rate, usb_clock_rate, pll_clock_rate, ahb_clock_rate,
    apb1_clock_rate, apb2_clock_rate, timer_apb1_clock_rate,
    timer_apb2_clock_rate, adc_clock_rate⟩)

/-- The clock rate frequency query of the stm32f10x controller. -/
def GetClockRate (rates : ClockRates) (id : PeripheralID) : Nat :=
  if id.device_id = Peripherals.kI2s.device_id then rates.pll_clock_rate
  else if id.device_id = Peripherals.kUsb.device_id then rates.usb_clock_rate
  else if id.device_id = Peripherals.kFlitf.device_id then kHighSpeedInternal
  else if id.device_id = Peripherals.kSystemTimer.device_id ∨
      id.device_id = Peripherals.kCpu.device_id then rates.ahb_clock_rate
  else if id.device_id = Peripherals.kTimer2.device_id ∨
      id.device_id = Peripherals.kTimer3.device_id ∨
      id.device_id = Peripherals.kTimer4.device_id ∨
      id.device_id = Peripherals.kTimer5.device_id ∨
      id.device_id = Peripherals.kTimer6.device_id ∨
      id.device_id = Peripherals.kTimer7.device_id ∨
      id.device_id = Peripherals.kTimer12.device_id ∨
      id.device_id = Peripherals.kTimer13.device_id ∨
      id.device_id = Peripherals.kTimer14.device_id then
    rates.timer_apb1_clock_rate
  else if id.device_id = Peripherals.kTimer1.device_id ∨
      id.device_id = Peripherals.kTimer8.device_id ∨
      id.device_id = Peripherals.kTimer9.device_id ∨
      id.device_id = Peripherals.kTimer10.device_id ∨
      id.device_id = Peripherals.kTimer11.device_id then
    rates.timer_apb2_clock_rate
  else if id.device_id = Peripherals.kAdc1.device_id ∨
      id.device_id = Peripherals.kAdc2.device_id ∨
      id.device_id = Peripherals.kAdc3.device_id then rates.adc_clock_rate
  else if id.device_id < Peripherals.kAPB1 then rates.ahb_clock_rate
  else if Peripherals.kAPB1 ≤ id.device_id ∧
      id.device_id < Peripherals.kAPB2 then rates.apb1_clock_rate
  else if Peripherals.kAPB2 ≤ id.device_id ∧
      id.device_id < Peripherals.kBeyond then rates.apb2_clock_rate
  else 0

/-- The three peripheral enable registers, in the order of the static
enable register array (AHBENR, APB1ENR, APB2ENR). -/
structure EnableRegisters where
  AHBENR : Nat
  APB1ENR : Nat
  APB2ENR : Nat
deriving DecidableEq, Repr

/-- Group index of a peripheral identity. -/
def EnableRegisterIndex (id : PeripheralID) : Nat := id.device_id / kBits

/-- Bit position of a peripheral identity inside its enable register. -/
def EnableBitPosition (id : PeripheralID) : Nat := id.device_id % kBits

/-- Dereference of the static enable register array.  The array has
exactly three entries, so an index past 2 is an out-of-bounds access,
modelled as none. -/
def readEnableRegister (regs : EnableRegisters) : Nat → Option Nat
  | 0 => some regs.AHBENR
  | 1 => some regs.APB1ENR
  | 2 => some regs.APB2ENR
  | _ => none

/-- Store into the static enable register array; an index past 2 is an
out-of-bounds access, modelled as none. -/
def writeEnableRegister (regs : EnableRegisters) (index value : Nat) :
    Option EnableRegisters :=
  match index with
  | 0 => some { regs with AHBENR := value }
  | 1 => some { regs with APB1ENR := value }
  | 2 => some { regs with APB2ENR := value }
  | _ => none

/-- Powered-up query: reads the bit of the identity inside its enable
register.  none marks an out-of-bounds access of the enable register
array (undefined behavior in the source). -/
def IsPeripheralPoweredUp (regs : EnableRegisters) (id : PeripheralID) :
    Option Bool :=
  (readEnableRegister regs (EnableRegisterIndex id)).map
    (fun w => bit.ReadPos w (EnableBitPosition id))

/-- Power up: sets the bit of the identity inside its enable register. -/
def PowerUpPeripheral (regs : EnableRegisters) (id : PeripheralID) :
    Option EnableRegisters :=
  (readEnableRegister regs (EnableRegisterIndex id)).bind
    (fun w => writeEnableRegister regs (EnableRegisterIndex id)
      (bit.SetPos w (EnableBitPosition id)))

/-- Power down: clears the bit of the identity inside its enable
register. -/
def PowerDownPeripheral (regs : EnableRegisters) (id : PeripheralID) :
    Option EnableRegisters :=
  (readEnableRegister regs (EnableRegisterIndex id)).bind
    (fun w => writeEnableRegister regs (EnableRegisterIndex id)
      (bit.ClearPos w (EnableBitPosition id)))

/-- The PLL input rate selected by the configured PLL source (the
switch of Initialize step 5). -/
def PllSelectedSourceRate (config : ClockConfiguration) : Nat :=
  match config.pll.source with
  | PllSource.kHighSpeedInternal => kHighSpeedInternal / 2
  | PllSource.kHighSpeedExternal => config.high_speed_external
  | PllSource.kHighSpeedExternalDividedBy2 => config.high_speed_external / 2

/-- Spec scenario 2: an 8 MHz external oscillator feeding the PLL with
multiplier times 9, system clock from the PLL, all bus dividers by 1. -/
def kScenario2Config : ClockConfiguration :=
  { high_speed_external := 8000000
    pll := { enable := true
             source := PllSource.kHighSpeedExternal
             multiply := PllMultiply.kMultiplyBy9
             usb := { divider := UsbDivider.kDivideBy1 } }
    system_clock := SystemClockSelect.kPll }

/-- Spec scenario 1: internal oscillator only, nothing external, no
PLL, all dividers by 1. -/
def kInternalOnlyConfig : ClockConfiguration :=
  { pll := { usb := { divider := UsbDivider.kDivideBy1 } } }

/-- The APB1 timer identities (Timer 2 to 7 and 12 to 14). -/
def kApb1TimerIds : List PeripheralID :=
  [Peripherals.kTimer2, Peripherals.kTimer3, Peripherals.kTimer4,
   Peripherals.kTimer5, Peripherals.kTimer6, Peripherals.kTimer7,
   Peripherals.kTimer12, Peripherals.kTimer13, Peripherals.kTimer14]

/-- The APB2 timer identities (Timer 1 and 8 to 11). -/
def kApb2TimerIds : List PeripheralID :=
  [Peripherals.kTimer1, Peripherals.kTimer8, Peripherals.kTimer9,
   Peripherals.kTimer10, Peripherals.kTimer11]


end stm32f10x

namespace msp432p401r

/-- The available internal oscillators for the clock system module. -/
inductive Oscillator
  | kLowFrequency
  | kVeryLowFrequency
  | kReference
  | kDigitallyControlled
  | kModule
  | kHighFrequency
deriving DecidableEq, Repr

/-- Stored register selector code of an oscillator. -/
def Oscillator.val : Oscillator → Nat
  | .kLowFrequency => 0b000
  | .kVeryLowFrequency => 0b001
  | .kReference => 0b010
  | .kDigitallyControlled => 0b011
  | .kModule => 0b100
  | .kHighFrequency => 0b101

/-- The available system clocks driven by the clock system module. -/
inductive Clock
  | kAuxiliary
  | kMaster
  | kSubsystemMaster
  | kLowSpeedSubsystemMaster
  | kBackup
  | kLowFrequency
  | kVeryLowFrequency
  | kReference
  | kModule
  | kSystem
deriving DecidableEq, Repr

/-- Enumerated value of a clock, in declaration order. -/
def Clock.val : Clock → Nat
  | .kAuxiliary => 0
  | .kMaster => 1
  | .kSubsystemMaster => 2
  | .kLowSpeedSubsystemMaster => 3
  | .kBackup => 4
  | .kLowFrequency => 5
  | .kVeryLowFrequency => 6
  | .kReference => 7
  | .kModule => 8
  | .kSystem => 9

/-- The available clock dividers for the primary clocks. -/
inductive ClockDivider
  | kDivideBy1
  | kDivideBy2
  | kDivideBy4
  | kDivideBy8
  | kDivideBy16
  | kDivideBy32
  | kDivideBy64
  | kDivideBy128
deriving DecidableEq, Repr

/-- Stored register selector code of a primary clock divider. -/
def ClockDivider.val : ClockDivider → Nat
  | .kDivideBy1 => 0b000
  | .kDivideBy2 => 0b001
  | .kDivideBy4 => 0b010
  | .kDivideBy8 => 0b011
  | .kDivideBy16 => 0b100
  | .kDivideBy32 => 0b101
  | .kDivideBy64 => 0b110
  | .kDivideBy128 => 0b111

namespace InternalOscillator

/-! Fixed clock rates of the available internal oscillators. -/

def kVeryLowFrequency : Nat := 9400

def kModule : Nat := 25000000

def kSystem : Nat := 5000000

/-- The two selectable reference oscillator rates. -/
def kReference : List Nat := [32768, 128000]

end InternalOscillator

namespace ExternalOscillator

/-! Fixed clock rates of the on-board external oscillators. -/

def kLowFrequency : Nat := 32768

def kHighFrequency : Nat := 48000000

end ExternalOscillator

namespace KeyRegister

/-- The CSKEY bit mask used for locking or unlocking the clock system
registers. -/
def kCsKey : bit.Mask := bit.CreateMaskFromRange 0 15

end KeyRegister

namespace Control0Register

/-! Bit masks for CTL0, the digitally controlled oscillator control
register. -/

def kTuningSelect : bit.Mask := bit.CreateMaskFromRange 0 9

def kFrequencySelect : bit.Mask := bit.CreateMaskFromRange 16 18

def kEnable : bit.Mask := bit.CreateMaskFromRange 23 23

end Control0Register

namespace Control1Register

/-! Bit masks for CTL1, the source select and divider select control
register of the primary clock signals. -/

def kMasterClockSourceSelect : bit.Mask := bit.CreateMaskFromRange 0 2

def kSubsystemClockSourceSelect : bit.Mask := bit.CreateMaskFromRange 4 6

def kAuxiliaryClockSourceSelect : bit.Mask := bit.CreateMaskFromRange 8 10

def kBackupClockSourceSelect : bit.Mask := bit.CreateMaskFromRange 12 12

def kMasterClockDividerSelect : bit.Mask := bit.CreateMaskFromRange 16 18

def kSubsystemClockDividerSelect : bit.Mask := bit.CreateMaskFromRange 20 22

def kAuxiliaryClockDividerSelect : bit.Mask := bit.CreateMaskFromRange 24 26

def kLowSpeedSubsystemClockDividerSelect : bit.Mask :=
  bit.CreateMaskFromRange 28 30

end Control1Register

namespace ClockEnableRegister

/-- Reference clock frequency select bit mask of CLKEN. -/
def kReferenceFrequencySelect : bit.Mask := bit.CreateMaskFromRange 15 15

end ClockEnableRegister

/-- Auxiliary clock sub-configuration. -/
structure AuxiliaryConfig where
  clock_source : Oscillator := Oscillator.kReference
  divider : ClockDivider := ClockDivider.kDivideBy1
deriving DecidableEq, Repr

/-- Master clock sub-configuration. -/
structure MasterConfig where
  clock_source : Oscillator := Oscillator.kDigitallyControlled
  divider : ClockDivider := ClockDivider.kDivideBy1
deriving DecidableEq, Repr

/-- Subsystem master clock sub-configuration; the selected source
drives both the subsystem master clock and the low speed subsystem
master clock. -/
structure SubsystemMasterConfig where
  clock_source : Oscillator := Oscillator.kDigitallyControlled
  divider : ClockDivider := ClockDivider.kDivideBy1
  low_speed_divider : ClockDivider := ClockDivider.kDivideBy1
deriving DecidableEq, Repr

/-- Backup clock sub-configuration. -/
structure BackupConfig where
  clock_source : Oscillator := Oscillator.kReference
deriving DecidableEq, Repr

/-- Reference clock sub-configuration: selector 0 outputs 32.768 kHz
and selector 1 outputs 128 kHz. -/
structure ReferenceConfig where
  frequency_select : Nat := 0
deriving DecidableEq, Repr

/-- Digitally controlled oscillator sub-configuration. -/
structure DcoConfig where
  enabled : Bool := true
  frequency : Nat := 3000000
deriving DecidableEq, Repr

/-- Clock configuration of the msp432p401r clock system. -/
structure ClockConfiguration_t where
  auxiliary : AuxiliaryConfig := {}
  master : MasterConfig := {}
  subsystem_master : SubsystemMasterConfig := {}
  backup : BackupConfig := {}
  reference : ReferenceConfig := {}
  dco : DcoConfig := {}
deriving DecidableEq, Repr

/-- The number of available clocks that can be used by the system. -/
def kClockPeripheralCount : Nat := 10

/-- The clock system control registers mutated by the controller. -/
structure CSState where
  KEY : Nat
  CTL0 : Nat
  CTL1 : Nat
  CLKEN : Nat
deriving DecidableEq, Repr

/-- Names of the mutable clock system registers, used to record write
events. -/
inductive CSRegister
  | KEY
  | CTL0
  | CTL1
  | CLKEN
deriving DecidableEq, Repr

/-- One recorded register mutation: the register written and the full
word stored into it. -/
structure WriteEvent where
  reg : CSRegister
  value : Nat
deriving DecidableEq, Repr

/-- The unlock key value written to the CSKEY field. -/
def kUnlockKey : Nat := 0x695A

/-- Unlocks the clock system registers by writing the unlock key to the
CSKEY register. -/
def UnlockClockSystemRegisters (s : CSState) : CSState × WriteEvent :=
  let v := bit.Insert s.KEY kUnlockKey KeyRegister.kCsKey
  ({ s with KEY := v }, ⟨CSRegister.KEY, v⟩)

/-- Locks the clock system registers by writing the lock value to the
CSKEY register. -/
def LockClockSystemRegisters (s : CSState) : CSState × WriteEvent :=
  let v := bit.Insert s.KEY 0x0000 KeyRegister.kCsKey
  ({ s with KEY := v }, ⟨CSRegister.KEY, v⟩)

/-- The divider select masks in the order of the clock enumeration, as
in the local constant array of SetClockDivider. -/
def kDividerSelectMasks : List bit.Mask :=
  [Control1Register.kAuxiliaryClockDividerSelect,
   Control1Register.kMasterClockDividerSelect,
   Control1Register.kSubsystemClockDividerSelect,
   Control1Register.kLowSpeedSubsystemClockDividerSelect]

/-- Waits for the ready status of a primary clock.  The status register
is read-only hardware state, so the busy wait performs no mutation; the
fatal assertion on a clock without a ready status is modelled as none. -/
def WaitForClockReadyStatus (clock : Clock) : Option Unit :=
  if clock.val ≤ Clock.val Clock.kBackup then some () else none

/-- Configures the clock divider for one of the four primary clock
signals.  The fatal assertion on any other clock is modelled as none;
on success the new register state is returned together with the list
of register mutations performed, in order. -/
def SetClockDivider (s : CSState) (clock : Clock)
    (divider : ClockDivider) : Option (CSState × List WriteEvent) :=
  if clock.val ≤ Clock.val Clock.kLowSpeedSubsystemMaster then
    let su := UnlockClockSystemRegisters s
    let v := bit.Insert su.1.CTL1 divider.val
      (kDividerSelectMasks.getD clock.val ⟨0, 0⟩)
    let s2 := { su.1 with CTL1 := v }
    let sl := LockClockSystemRegisters s2
    (WaitForClockReadyStatus clock).map (fun _ =>
      (sl.1, [su.2, ⟨CSRegister.CTL1, v⟩, sl.2]))
  else none

/-- The primary clock source select masks in the order of the clock
enumeration, as in the local constant array of SetClockSource.  The
subsystem master clock and the low speed subsystem master clock share
one select mask. -/
def kPrimaryClockSelectMasks : List bit.Mask :=
  [Control1Register.kAuxiliaryClockSourceSelect,
   Control1Register.kMasterClockSourceSelect,
   Control1Register.kSubsystemClockSourceSelect,
   Control1Register.kSubsystemClockSourceSelect,
   Control1Register.kBackupClockSourceSelect]

/-- Configures one of the five primary clock signals to be sourced by
the specified oscillator.  Fatal assertions on illegal source and clock
combinations are modelled as none; on success the single CTL1 mutation
performed is recorded.  Note that the CTL1 write is not bracketed by
key register writes. -/
def SetClockSource (s : CSState) (clock : Clock) (source : Oscillator) :
    Option (CSState × List WriteEvent) :=
  let write := fun (select_value : Nat) =>
    let v := bit.Insert s.CTL1 select_value
      (kPrimaryClockSelectMasks.getD clock.val ⟨0, 0⟩)
    some ({ s with CTL1 := v }, [(⟨CSRegister.CTL1, v⟩ : WriteEvent)])
  match clock with
  | Clock.kMaster => write source.val
  | Clock.kSubsystemMaster => write source.val
  | Clock.kLowSpeedSubsystemMaster => write source.val
  | Clock.kAuxiliary =>
      if source.val ≤ Oscillator.val Oscillator.kReference then
        write source.val
      else none
  | Clock.kBackup =>
      if source = Oscillator.kLowFrequency then write source.val
      else if source = Oscillator.kReference then write 0b1
      else none
  | _ => none

/-- The DCO frequency range select code determined from the target
frequency thresholds. -/
def dcoFrequencySelect (frequency : Nat) : Nat :=
  if 32000000 ≤ frequency then 0b101
  else if 16000000 ≤ frequency then 0b100
  else if 8000000 ≤ frequency then 0b011
  else if 4000000 ≤ frequency then 0b010
  else if 2000000 ≤ frequency then 0b001
  else 0b000

/-- Configures the DCO clock to generate the target frequency and
returns it.  The signed 10-bit tuning value is computed by floating
point arithmetic from factory calibration constants read from the
device descriptor table; it is taken here as the parameter tuning,
since it only affects the word stored into CTL0.  The fatal assertion
on a target frequency outside 1 MHz to 48 MHz is modelled as none. -/
def ConfigureDcoClock (s : CSState) (cfg : ClockConfiguration_t)
    (tuning : Nat) : Option (CSState × List WriteEvent × Nat) :=
  if cfg.dco.enabled then
    if 1000000 ≤ cfg.dco.frequency ∧ cfg.dco.frequency ≤ 48000000 then
      let su := UnlockClockSystemRegisters s
      let c0 := bit.Insert su.1.CTL0 tuning Control0Register.kTuningSelect
      let c0 := bit.Insert c0 (dcoFrequencySelect cfg.dco.frequency)
        Control0Register.kFrequencySelect
      let c0 := bit.Set c0 Control0Register.kEnable
      let s2 := { su.1 with CTL0 := c0 }
      let sl := LockClockSystemRegisters s2
      some (sl.1, [su.2, ⟨CSRegister.CTL0, c0⟩, sl.2], cfg.dco.frequency)
    else none
  else some (s, [], cfg.dco.frequency)

/-- Configures the reference clock to output either 32.768 kHz or
128 kHz and returns the selected rate.  The fatal assertion on a
selector past 1 is modelled as none. -/
def ConfigureReferenceClock (s : CSState) (cfg : ClockConfiguration_t) :
    Option (CSState × List WriteEvent × Nat) :=
  if cfg.reference.frequency_select ≤ 0b1 then
    let v := bit.Insert s.CLKEN cfg.reference.frequency_select
      ClockEnableRegister.kReferenceFrequencySelect
    some ({ s with CLKEN := v }, [⟨CSRegister.CLKEN, v⟩],
      InternalOscillator.kReference.getD cfg.reference.frequency_select 0)
  else none

/-- Source rate of a primary clock that may be driven by any of the six
oscillators, given the derived DCO and reference rates (the switches on
the master and subsystem master clock sources). -/
def clockSourceRate (source : Oscillator) (dco refo : Nat) : Nat :=
  match source with
  | Oscillator.kLowFrequency => ExternalOscillator.kLowFrequency
  | Oscillator.kVeryLowFrequency => InternalOscillator.kVeryLowFrequency
  | Oscillator.kReference => refo
  | Oscillator.kDigitallyControlled => dco
  | Oscillator.kModule => InternalOscillator.kModule
  | Oscillator.kHighFrequency => ExternalOscillator.kHighFrequency

/-- Source rate of the auxiliary clock (the aclk switch: sources other
than the low frequency, very low frequency and reference oscillators
leave the rate zero). -/
def auxiliarySourceRate (source : Oscillator) (refo : Nat) : Nat :=
  match source with
  | Oscillator.kLowFrequency => ExternalOscillator.kLowFrequency
  | Oscillator.kVeryLowFrequency => InternalOscillator.kVeryLowFrequency
  | Oscillator.kReference => refo
  | _ => 0

/-- Source rate of the backup clock (the bclk switch: sources other
than the low frequency and reference oscillators leave the rate
zero). -/
def backupSourceRate (source : Oscillator) (refo : Nat) : Nat :=
  match source with
  | Oscillator.kLowFrequency => ExternalOscillator.kLowFrequency
  | Oscillator.kReference => refo
  | _ => 0

/-- Result of a successful run of the initialization sequence: the
final register state, the ordered trace of register mutations, and the
derived clock rate table. -/
structure InitResult where
  state : CSState
  trace : List WriteEvent
  rates : List Nat
deriving DecidableEq, Repr

/-- The staged initialization sequence of the msp432p401r controller:
configure the DCO and reference clocks, select the source of each
primary clock, program the primary clock dividers, then derive the
clock rate table.  A fatal assertion anywhere in the sequence is
modelled as none. -/
def Initialize (s : CSState) (cfg : ClockConfiguration_t)
    (tuning : Nat) : Option InitResult :=
  match ConfigureDcoClock s cfg tuning with
  | none => none
  | some (s1, t1, dco) =>
  match ConfigureReferenceClock s1 cfg with
  | none => none
  | some (s2, t2, refo) =>
  match SetClockSource s2 Clock.kAuxiliary cfg.auxiliary.clock_source with
  | none => none
  | some (s3, t3) =>
  match SetClockSource s3 Clock.kMaster cfg.master.clock_source with
  | none => none
  | some (s4, t4) =>
  match SetClockSource s4 Clock.kSubsystemMaster
      cfg.subsystem_master.clock_source with
  | none => none
  | some (s5, t5) =>
  match SetClockSource s5 Clock.kBackup cfg.backup.clock_source with
  | none => none
  | some (s6, t6) =>
  match SetClockDivider s6 Clock.kAuxiliary cfg.auxiliary.divider with
  | none => none
  | some (s7, t7) =>
  match SetClockDivider s7 Clock.kMaster cfg.master.divider with
  | none => none
  | some (s8, t8) =>
  match SetClockDivider s8 Clock.kSubsystemMaster
      cfg.subsystem_master.divider with
  | none => none
  | some (s9, t9) =>
  match SetClockDivider s9 Clock.kLowSpeedSubsystemMaster
      cfg.subsystem_master.low_speed_divider with
  | none => none
  | some (s10, t10) =>
  let aclk := auxiliarySourceRate cfg.auxiliary.clock_source refo
  let mclk := clockSourceRate cfg.master.clock_source dco refo
  let smclk := clockSourceRate cfg.subsystem_master.clock_source dco refo
  let bclk := backupSourceRate cfg.backup.clock_source refo
  some
    { state := s10
      trace := t1 ++ t2 ++ t3 ++ t4 ++ t5 ++ t6 ++ t7 ++ t8 ++ t9 ++ t10
      rates :=
        [aclk / (1 <<< cfg.auxiliary.divider.val),
         mclk / (1 <<< cfg.master.divider.val),
         smclk / (1 <<< cfg.subsystem_master.divider.val),
         smclk / (1 <<< cfg.subsystem_master.low_speed_divider.val),
         bclk,
         ExternalOscillator.kLowFrequency,
         InternalOscillator.kVeryLowFrequency,
         refo,
         InternalOscillator.kModule,
         InternalOscillator.kSystem] }

/-- The clock rate frequency query of the msp432p401r controller:
identities past the clock peripheral count give the zero sentinel. -/
def GetClockRate (rates : List Nat) (peripheral : PeripheralID) : Nat :=
  if kClockPeripheralCount ≤ peripheral.device_id then 0
  else rates.getD peripheral.device_id 0

/-- Powered-up query of the msp432p401r controller: the family defines
no peripheral power gating banks, so the query is the constant false
and touches no memory. -/
def IsPeripheralPoweredUp (_ : PeripheralID) : Bool := false

/-- Power up mutation of the msp432p401r controller: an unconditional
fatal assertion, modelled as none, touching no memory. -/
def PowerUpPeripheral (_ : PeripheralID) : Option Unit := none

/-- Power down mutation of the msp432p401r controller: an unconditional
fatal assertion, modelled as none, touching no memory. -/
def PowerDownPeripheral (_ : PeripheralID) : Option Unit := none

/-- A write event is a mutation of one of the key-protected clock
control registers (every clock system register other than the key
register itself). -/
def isProtectedWrite (e : WriteEvent) : Bool :=
  match e.reg with
  | CSRegister.KEY => false
  | _ => true

/-- A write event that stores the unlock key into the CSKEY field. -/
def isUnlockWrite (e : WriteEvent) : Bool :=
  decide (e.reg = CSRegister.KEY) &&
    decide (bit.Extract e.value KeyRegister.kCsKey = kUnlockKey)

/-- A write event that stores the lock value into the CSKEY field. -/
def isLockWrite (e : WriteEvent) : Bool :=
  decide (e.reg = CSRegister.KEY) &&
    decide (bit.Extract e.value KeyRegister.kCsKey = 0)

/-- Checks that every protected register mutation of a write trace is
immediately preceded by an unlock key write and immediately followed by
a lock key write. -/
def properlyBracketed (trace : List WriteEvent) : Bool :=
  (List.range trace.length).all (fun i =>
    let dflt : WriteEvent := ⟨CSRegister.KEY, 0⟩
    !(isProtectedWrite (trace.getD i dflt)) ||
      (decide (0 < i) && isUnlockWrite (trace.getD (i - 1) dflt) &&
        isLockWrite (trace.getD (i + 1) dflt)))

/-- The reference clock rate selected by the configuration. -/
def RefoRate (cfg : ClockConfiguration_t) : Nat :=
  InternalOscillator.kReference.getD cfg.reference.frequency_select 0

/-- The conjunction of the configuration legality conditions checked by
the fatal assertions of the initialization sequence. -/
def InitOk (cfg : ClockConfiguration_t) : Prop :=
  (cfg.dco.enabled = true →
    1000000 ≤ cfg.dco.frequency ∧ cfg.dco.frequency ≤ 48000000) ∧
  cfg.reference.frequency_select ≤ 1 ∧
  Oscillator.val cfg.auxiliary.clock_source ≤
    Oscillator.val Oscillator.kReference ∧
  (cfg.backup.clock_source = Oscillator.kLowFrequency ∨
    cfg.backup.clock_source = Oscillator.kReference)

instance (cfg : ClockConfiguration_t) : Decidable (InitOk cfg) := by
  unfold InitOk
  infer_instance

/-- The derived clock rate table as a pure function of the
configuration (the rates list built at the end of Initialize). -/
def DerivedRates (cfg : ClockConfiguration_t) : List Nat :=
  [auxiliarySourceRate cfg.auxiliary.clock_source (RefoRate cfg) /
     (1 <<< cfg.auxiliary.divider.val),
   clockSourceRate cfg.master.clock_source cfg.dco.frequency (RefoRate cfg) /
     (1 <<< cfg.master.divider.val),
   clockSourceRate cfg.subsystem_master.clock_source cfg.dco.frequency
       (RefoRate cfg) /
     (1 <<< cfg.subsystem_master.divider.val),
   clockSourceRate cfg.subsystem_master.clock_source cfg.dco.frequency
       (RefoRate cfg) /
     (1 <<< cfg.subsystem_master.low_speed_divider.val),
   backupSourceRate cfg.backup.clock_source (RefoRate cfg),
   ExternalOscillator.kLowFrequency,
   InternalOscillator.kVeryLowFrequency,
   RefoRate cfg,
   InternalOscillator.kModule,
   InternalOscillator.kSystem]

end msp432p401r

namespace bit

/-! Facts about single-bit reads after single-bit mutations of a 32-bit
register word. -/

lemma readPos_setPos_self (w p : Nat) : ReadPos (SetPos w p) p = true := by
  simp [ReadPos, SetPos, Nat.testBit_or, Nat.one_shiftLeft,
    Nat.testBit_two_pow_self]

lemma readPos_setPos_ne (w p q : Nat) (h : p ≠ q) :
    ReadPos (SetPos w p) q = ReadPos w q := by
  simp [ReadPos, SetPos, Nat.testBit_or, Nat.one_shiftLeft,
    Nat.testBit_two_pow, h]

lemma readPos_clearPos_self (w p : Nat) (hp : p < 32) :
    ReadPos (ClearPos w p) p = false := by
  simp only [ReadPos, ClearPos, kRegisterMax, Nat.one_shiftLeft,
    Nat.testBit_and, Nat.testBit_xor, Nat.testBit_two_pow,
    Nat.testBit_two_pow_sub_one]
  simp [hp]

lemma readPos_clearPos_ne (w p q : Nat) (h : p ≠ q) (hq : q < 32) :
    ReadPos (ClearPos w p) q = ReadPos w q := by
  simp only [ReadPos, ClearPos, kRegisterMax, Nat.one_shiftLeft,
    Nat.testBit_and, Nat.testBit_xor, Nat.testBit_two_pow,
    Nat.testBit_two_pow_sub_one]
  simp [h, hq]

end bit


/-- C1: with the PLL enabled, the derived PLL clock rate equals the
selected PLL source frequency multiplied by the stored multiplier
selector value plus two (so stored code 0 means times 2, the stored
code of kMultiplyBy9 is 7), and in the concrete scenario of an 8 MHz
external oscillator feeding the PLL with multiplier times 9, system
clock from the PLL and all bus dividers by 1, the clock rate of the CPU
domain is 72 MHz. -/
theorem stm32_pll_rate_uses_selector_plus_two :
    (stm32f10x.PllMultiply.val stm32f10x.PllMultiply.kMultiplyBy2 = 0) ∧
    (∀ (config : stm32f10x.ClockConfiguration) (regs : stm32f10x.Registers),
      config.pll.enable = true →
      (stm32f10x.Initialize config regs).2.pll_clock_rate =
        stm32f10x.PllSelectedSourceRate config *
          (stm32f10x.PllMultiply.val config.pll.multiply + 2)) ∧
    (∀ regs : stm32f10x.Registers,
      stm32f10x.GetClockRate (stm32f10x.Initialize
          stm32f10x.kScenario2Config regs).2 stm32f10x.Peripherals.kCpu =
        72000000) := by
  refine ⟨rfl, ?_, fun regs => rfl⟩
  intro config regs h
  simp [stm32f10x.Initialize, stm32f10x.PllSelectedSourceRate, h]

/-- C1 witness: the general PLL rate equation instantiated at the
concrete scenario 2 configuration. -/
theorem stm32_pll_rate_uses_selector_plus_two_witness :
    (stm32f10x.kScenario2Config.pll.enable = true) ∧
    (stm32f10x.Initialize stm32f10x.kScenario2Config
        ⟨0, 0, 0, 0⟩).2.pll_clock_rate =
      stm32f10x.PllSelectedSourceRate stm32f10x.kScenario2Config *
        (stm32f10x.PllMultiply.val
          stm32f10x.kScenario2Config.pll.multiply + 2) :=
  ⟨rfl, stm32_pll_rate_uses_selector_plus_two.2.1
    stm32f10x.kScenario2Config ⟨0, 0, 0, 0⟩ rfl⟩

/-- C4: with the internal oscillator only configuration (no external
oscillators, PLL disabled, system clock from the internal oscillator,
all dividers by 1), the clock rate of the CPU domain is the fixed 8 MHz
internal oscillator rate and the clock rate of the USB domain is 0,
because the PLL was never enabled. -/
theorem stm32_internal_osc_only_rates :
    ∀ regs : stm32f10x.Registers,
      stm32f10x.GetClockRate (stm32f10x.Initialize
          stm32f10x.kInternalOnlyConfig regs).2 stm32f10x.Peripherals.kCpu =
        stm32f10x.kHighSpeedInternal ∧
      stm32f10x.GetClockRate (stm32f10x.Initialize
          stm32f10x.kInternalOnlyConfig regs).2 stm32f10x.Peripherals.kUsb =
        0 :=
  fun _ => ⟨rfl, rfl⟩

/-- C7: on the msp432p401r family, which defines no peripheral power
gating banks, the powered-up query is constant false and both power
mutations are unconditional fatal assertions that access no memory. -/
theorem msp432_power_gating_unsupported :
    ∀ id : PeripheralID,
      msp432p401r.IsPeripheralPoweredUp id = false ∧
      msp432p401r.PowerUpPeripheral id = none ∧
      msp432p401r.PowerDownPeripheral id = none :=
  fun _ => ⟨rfl, rfl, rfl⟩

/-- C2: evaluation of the out-of-range query behavior.  An identity one
past the enumerated range gives the zero sentinel from GetClockRate on
both families and the constant false from the msp432p401r powered-up
query, but the stm32f10x powered-up query dereferences the enable
register array out of bounds (group index 3 of a 3-entry array, modelled
as none) instead of returning the false sentinel. -/
theorem stm32_out_of_range_power_query_out_of_bounds :
    (∀ rates : stm32f10x.ClockRates,
      stm32f10x.GetClockRate rates ⟨99⟩ = 0) ∧
    (∀ regs : stm32f10x.EnableRegisters,
      stm32f10x.IsPeripheralPoweredUp regs ⟨99⟩ = none) ∧
    (∀ rates : List Nat, msp432p401r.GetClockRate rates ⟨10⟩ = 0) ∧
    (∀ id : PeripheralID, msp432p401r.IsPeripheralPoweredUp id = false) :=
  ⟨fun _ => rfl, fun _ => rfl, fun _ => rfl, fun _ => rfl⟩

/-- C3: in the msp432p401r initialization sequence the clock divider
writes are bracketed by unlock and lock key writes, but the source
select writes to CTL1 and the reference clock write to CLKEN are not:
the recorded write trace of a default-configuration run violates the
bracketing discipline. -/
theorem msp432_init_write_trace_not_bracketed :
    ((msp432p401r.SetClockDivider ⟨0, 0, 0, 0⟩
        msp432p401r.Clock.kAuxiliary
        msp432p401r.ClockDivider.kDivideBy1).map
      (fun r => msp432p401r.properlyBracketed r.2) = some true) ∧
    ((msp432p401r.SetClockSource ⟨0, 0, 0, 0⟩
        msp432p401r.Clock.kAuxiliary
        msp432p401r.Oscillator.kReference).map
      (fun r => msp432p401r.properlyBracketed r.2) = some false) ∧
    ((msp432p401r.Initialize ⟨0, 0, 0, 0⟩ {} 0).map
      (fun out => msp432p401r.properlyBracketed out.trace) = some false) := by
  refine ⟨by decide, by decide, by decide⟩

/-- C5 counterexample: the CPU identity is one of the enumerated
identities of the stm32f10x family, yet powering it up dereferences the
enable register array out of bounds (undefined behavior, modelled as
none), so the claimed power-up and read-back round trip does not return
true for every valid identity. -/
theorem stm32_power_cycle_fails_on_cpu_identity :
    (stm32f10x.PowerUpPeripheral ⟨0, 0, 0⟩ stm32f10x.Peripherals.kCpu).bind
      (fun regs => stm32f10x.IsPeripheralPoweredUp regs
        stm32f10x.Peripherals.kCpu) ≠ some true := by
  decide

set_option maxHeartbeats 1000000 in
lemma msp432_initialize_map_rates (s : msp432p401r.CSState)
    (cfg : msp432p401r.ClockConfiguration_t) (t : Nat) :
    Option.map msp432p401r.InitResult.rates (msp432p401r.Initialize s cfg t) =
      if msp432p401r.InitOk cfg then some (msp432p401r.DerivedRates cfg)
      else none := by
  by_cases h1 : cfg.dco.enabled = true <;>
  by_cases h2 : 1000000 ≤ cfg.dco.frequency ∧ cfg.dco.frequency ≤ 48000000 <;>
  by_cases h3 : cfg.reference.frequency_select ≤ 1 <;>
  by_cases h4 : msp432p401r.Oscillator.val cfg.auxiliary.clock_source ≤
    msp432p401r.Oscillator.val msp432p401r.Oscillator.kReference <;>
  by_cases h5 : cfg.backup.clock_source =
    msp432p401r.Oscillator.kLowFrequency <;>
  by_cases h6 : cfg.backup.clock_source =
    msp432p401r.Oscillator.kReference <;>
  simp [msp432p401r.Initialize, msp432p401r.ConfigureDcoClock,
    msp432p401r.ConfigureReferenceClock, msp432p401r.SetClockSource,
    msp432p401r.SetClockDivider, msp432p401r.WaitForClockReadyStatus,
    msp432p401r.UnlockClockSystemRegisters,
    msp432p401r.LockClockSystemRegisters, msp432p401r.InitOk,
    msp432p401r.DerivedRates, msp432p401r.RefoRate, msp432p401r.Clock.val,
    msp432p401r.auxiliarySourceRate, msp432p401r.clockSourceRate,
    msp432p401r.backupSourceRate, h1, h2, h3, h4, h5, h6]

/-- C8: the derived rate tables of both families are pure functions of
the configuration: the stm32f10x rate table does not depend on the
initial register state and re-running the derivation from the final
register state reproduces it, and the msp432p401r rate table depends
neither on the initial register state nor on the calibration-derived
tuning value, and re-deriving from the final register state reproduces
it. -/
theorem rate_derivation_deterministic :
    (∀ (config : stm32f10x.ClockConfiguration)
       (r1 r2 : stm32f10x.Registers),
      (stm32f10x.Initialize config r1).2 =
        (stm32f10x.Initialize config r2).2) ∧
    (∀ (config : stm32f10x.ClockConfiguration) (r : stm32f10x.Registers),
      (stm32f10x.Initialize config (stm32f10x.Initialize config r).1).2 =
        (stm32f10x.Initialize config r).2) ∧
    (∀ (cfg : msp432p401r.ClockConfiguration_t)
       (s1 s2 : msp432p401r.CSState) (t1 t2 : Nat),
      Option.map msp432p401r.InitResult.rates
          (msp432p401r.Initialize s1 cfg t1) =
        Option.map msp432p401r.InitResult.rates
          (msp432p401r.Initialize s2 cfg t2)) ∧
    (∀ (cfg : msp432p401r.ClockConfiguration_t) (s : msp432p401r.CSState)
       (t : Nat),
      Option.map msp432p401r.InitResult.rates
          (msp432p401r.Initialize
            (match msp432p401r.Initialize s cfg t with
              | some out => out.state
              | none => s) cfg t) =
        Option.map msp432p401r.InitResult.rates
          (msp432p401r.Initialize s cfg t)) := by
  refine ⟨fun config r1 r2 => rfl, fun config r => rfl, ?_, ?_⟩
  · intro cfg s1 s2 t1 t2
    rw [msp432_initialize_map_rates, msp432_initialize_map_rates]
  · intro cfg s t
    rw [msp432_initialize_map_rates, msp432_initialize_map_rates]

/-- C10: the subsystem master clock and the low speed subsystem master
clock share a single oscillator source: their source select operations
write the same register field and produce identical results, and after
a successful initialization both rate table entries derive from the
same source frequency, differing only by their respective power-of-two
dividers. -/
theorem msp432_subsystem_clocks_share_source :
    (∀ (s : msp432p401r.CSState) (source : msp432p401r.Oscillator),
      msp432p401r.SetClockSource s
          msp432p401r.Clock.kSubsystemMaster source =
        msp432p401r.SetClockSource s
          msp432p401r.Clock.kLowSpeedSubsystemMaster source) ∧
    (msp432p401r.kPrimaryClockSelectMasks.getD
        (msp432p401r.Clock.val msp432p401r.Clock.kSubsystemMaster) ⟨0, 0⟩ =
      msp432p401r.kPrimaryClockSelectMasks.getD
        (msp432p401r.Clock.val
          msp432p401r.Clock.kLowSpeedSubsystemMaster) ⟨0, 0⟩) ∧
    (∀ (s : msp432p401r.CSState) (cfg : msp432p401r.ClockConfiguration_t)
       (t : Nat) (out : msp432p401r.InitResult),
      msp432p401r.Initialize s cfg t = some out →
      out.rates.getD
          (msp432p401r.Clock.val msp432p401r.Clock.kSubsystemMaster) 0 =
        msp432p401r.clockSourceRate cfg.subsystem_master.clock_source
            cfg.dco.frequency (msp432p401r.RefoRate cfg) /
          (1 <<< cfg.subsystem_master.divider.val) ∧
      out.rates.getD
          (msp432p401r.Clock.val
            msp432p401r.Clock.kLowSpeedSubsystemMaster) 0 =
        msp432p401r.clockSourceRate cfg.subsystem_master.clock_source
            cfg.dco.frequency (msp432p401r.RefoRate cfg) /
          (1 <<< cfg.subsystem_master.low_speed_divider.val)) := by
  refine ⟨fun s source => rfl, rfl, ?_⟩
  intro s cfg t out h
  have hm := msp432_initialize_map_rates s cfg t
  rw [h] at hm
  simp only [Option.map_some'] at hm
  by_cases hok : msp432p401r.InitOk cfg
  · rw [if_pos hok] at hm
    have hrates : out.rates = msp432p401r.DerivedRates cfg :=
      Option.some.inj hm
    rw [hrates]
    exact ⟨rfl, rfl⟩
  · rw [if_neg hok] at hm
    exact absurd hm (by simp)

/-- C10 witness: a default-configuration run has both subsystem rate
table entries equal to the shared DCO source rate divided by 1. -/
theorem msp432_subsystem_clocks_share_source_witness :
    (msp432p401r.Initialize ⟨0, 0, 0, 0⟩ {} 0).map
        (fun out => out.rates.getD
          (msp432p401r.Clock.val msp432p401r.Clock.kSubsystemMaster) 0) =
      some 3000000 ∧
    (msp432p401r.Initialize ⟨0, 0, 0, 0⟩ {} 0).map
        (fun out => out.rates.getD
          (msp432p401r.Clock.val
            msp432p401r.Clock.kLowSpeedSubsystemMaster) 0) =
      some 3000000 := by
  rcases hinit : msp432p401r.Initialize ⟨0, 0, 0, 0⟩ {} 0 with _ | out
  · exact absurd hinit (by decide)
  · have h := msp432_subsystem_clocks_share_source.2.2
      ⟨0, 0, 0, 0⟩ {} 0 out hinit
    simp only [Option.map_some']
    rw [h.1, h.2]
    exact ⟨by decide, by decide⟩

lemma msp432_setClockSource_aux_illegal (s : msp432p401r.CSState)
    (source : msp432p401r.Oscillator)
    (h : ¬(source = msp432p401r.Oscillator.kLowFrequency ∨
      source = msp432p401r.Oscillator.kVeryLowFrequency ∨
      source = msp432p401r.Oscillator.kReference)) :
    msp432p401r.SetClockSource s msp432p401r.Clock.kAuxiliary source =
      none := by
  cases source
  · exact absurd (Or.inl rfl) h
  · exact absurd (Or.inr (Or.inl rfl)) h
  · exact absurd (Or.inr (Or.inr rfl)) h
  · rfl
  · rfl
  · rfl

/-- C6: an illegal source and domain combination is rejected by a fatal
abort at the point of detection: the auxiliary clock select aborts
exactly when the source is not the low frequency, very low frequency or
reference oscillator, the backup clock select aborts exactly when the
source is not the low frequency or reference oscillator, and an illegal
auxiliary source makes the whole initialization sequence abort. -/
theorem msp432_illegal_source_combination_fatal :
    (∀ (s : msp432p401r.CSState) (source : msp432p401r.Oscillator),
      (msp432p401r.SetClockSource s msp432p401r.Clock.kAuxiliary source =
          none ↔
        ¬(source = msp432p401r.Oscillator.kLowFrequency ∨
          source = msp432p401r.Oscillator.kVeryLowFrequency ∨
          source = msp432p401r.Oscillator.kReference)) ∧
      (msp432p401r.SetClockSource s msp432p401r.Clock.kBackup source =
          none ↔
        ¬(source = msp432p401r.Oscillator.kLowFrequency ∨
          source = msp432p401r.Oscillator.kReference))) ∧
    (∀ (s : msp432p401r.CSState) (cfg : msp432p401r.ClockConfiguration_t)
       (t : Nat),
      ¬(cfg.auxiliary.clock_source =
          msp432p401r.Oscillator.kLowFrequency ∨
        cfg.auxiliary.clock_source =
          msp432p401r.Oscillator.kVeryLowFrequency ∨
        cfg.auxiliary.clock_source = msp432p401r.Oscillator.kReference) →
      msp432p401r.Initialize s cfg t = none) := by
  constructor
  · intro s source
    constructor <;> cases source <;>
      simp [msp432p401r.SetClockSource, msp432p401r.Oscillator.val]
  · intro s cfg t h
    cases hd : msp432p401r.ConfigureDcoClock s cfg t with
    | none => simp [msp432p401r.Initialize, hd]
    | some x =>
      obtain ⟨s1, t1, dco⟩ := x
      cases hr : msp432p401r.ConfigureReferenceClock s1 cfg with
      | none => simp [msp432p401r.Initialize, hd, hr]
      | some y =>
        obtain ⟨s2, t2, refo⟩ := y
        simp [msp432p401r.Initialize, hd, hr,
          msp432_setClockSource_aux_illegal s2 cfg.auxiliary.clock_source h]

/-- C6 witness: selecting the digitally controlled oscillator for the
auxiliary clock makes initialization abort. -/
theorem msp432_illegal_source_combination_witness :
    msp432p401r.Initialize ⟨0, 0, 0, 0⟩
      { auxiliary :=
        { clock_source := msp432p401r.Oscillator.kDigitallyControlled } }
      0 = none :=
  msp432_illegal_source_combination_fatal.2 ⟨0, 0, 0, 0⟩ _ 0 (by decide)

lemma stm32_getClockRate_apb1_timer (rates : stm32f10x.ClockRates)
    (id : PeripheralID) (h : id ∈ stm32f10x.kApb1TimerIds) :
    stm32f10x.GetClockRate rates id = rates.timer_apb1_clock_rate := by
  fin_cases h <;> rfl

lemma stm32_getClockRate_apb2_timer (rates : stm32f10x.ClockRates)
    (id : PeripheralID) (h : id ∈ stm32f10x.kApb2TimerIds) :
    stm32f10x.GetClockRate rates id = rates.timer_apb2_clock_rate := by
  fin_cases h <;> rfl

lemma stm32_timer_apb1_rate (config : stm32f10x.ClockConfiguration)
    (regs : stm32f10x.Registers) :
    (stm32f10x.Initialize config regs).2.timer_apb1_clock_rate =
      if config.ahb.apb1.divider = stm32f10x.APBDivider.kDivideBy1
      then (stm32f10x.Initialize config regs).2.apb1_clock_rate
      else (stm32f10x.Initialize config regs).2.apb1_clock_rate * 2 := by
  cases h : config.ahb.apb1.divider <;> simp [stm32f10x.Initialize, h]

lemma stm32_timer_apb2_rate (config : stm32f10x.ClockConfiguration)
    (regs : stm32f10x.Registers) :
    (stm32f10x.Initialize config regs).2.timer_apb2_clock_rate =
      if config.ahb.apb2.divider = stm32f10x.APBDivider.kDivideBy1
      then (stm32f10x.Initialize config regs).2.apb2_clock_rate
      else (stm32f10x.Initialize config regs).2.apb2_clock_rate * 2 := by
  cases h : config.ahb.apb2.divider <;> simp [stm32f10x.Initialize, h]

/-- C9: after initialization, every APB1 timer identity reads exactly
the APB1 bus rate when the APB1 divider is by 1 and exactly twice the
APB1 bus rate for any other APB1 divider, and symmetrically every APB2
timer identity with respect to the APB2 divider. -/
theorem stm32_apb_timer_doubling :
    ∀ (config : stm32f10x.ClockConfiguration) (regs : stm32f10x.Registers)
      (id : PeripheralID),
      (id ∈ stm32f10x.kApb1TimerIds →
        stm32f10x.GetClockRate (stm32f10x.Initialize config regs).2 id =
          if config.ahb.apb1.divider = stm32f10x.APBDivider.kDivideBy1
          then (stm32f10x.Initialize config regs).2.apb1_clock_rate
          else (stm32f10x.Initialize config regs).2.apb1_clock_rate * 2) ∧
      (id ∈ stm32f10x.kApb2TimerIds →
        stm32f10x.GetClockRate (stm32f10x.Initialize config regs).2 id =
          if config.ahb.apb2.divider = stm32f10x.APBDivider.kDivideBy1
          then (stm32f10x.Initialize config regs).2.apb2_clock_rate
          else (stm32f10x.Initialize config regs).2.apb2_clock_rate * 2) := by
  intro config regs id
  refine ⟨fun h => ?_, fun h => ?_⟩
  · rw [stm32_getClockRate_apb1_timer _ _ h, stm32_timer_apb1_rate]
  · rw [stm32_getClockRate_apb2_timer _ _ h, stm32_timer_apb2_rate]

/-- C9 witness: Timer 2 under the internal-oscillator default
configuration, whose APB1 divider is by 1. -/
theorem stm32_apb_timer_doubling_witness :
    (stm32f10x.Peripherals.kTimer2 ∈ stm32f10x.kApb1TimerIds) ∧
    stm32f10x.GetClockRate
        (stm32f10x.Initialize stm32f10x.kInternalOnlyConfig
          ⟨0, 0, 0, 0⟩).2 stm32f10x.Peripherals.kTimer2 =
      (if stm32f10x.kInternalOnlyConfig.ahb.apb1.divider =
          stm32f10x.APBDivider.kDivideBy1
        then (stm32f10x.Initialize stm32f10x.kInternalOnlyConfig
          ⟨0, 0, 0, 0⟩).2.apb1_clock_rate
        else (stm32f10x.Initialize stm32f10x.kInternalOnlyConfig
          ⟨0, 0, 0, 0⟩).2.apb1_clock_rate * 2) :=
  ⟨by decide,
    (stm32_apb_timer_doubling stm32f10x.kInternalOnlyConfig ⟨0, 0, 0, 0⟩
      stm32f10x.Peripherals.kTimer2).1 (by decide)⟩

/-- C5 (amended): for every peripheral identity mapping into the three
enable register banks (device identifier below the kBeyond group),
power up followed by the powered-up query reads true, power down
followed by the query reads false, a power operation on one identity
never changes the bit state read for a distinct in-bank identity, and
no two distinct identities map to the same group index and bit position
pair. -/
theorem stm32_power_gating_bank_identities_correct :
    ∀ (regs : stm32f10x.EnableRegisters) (a b : PeripheralID),
      a.device_id < stm32f10x.Peripherals.kBeyond →
      b.device_id < stm32f10x.Peripherals.kBeyond →
      a.device_id ≠ b.device_id →
      ((stm32f10x.PowerUpPeripheral regs a).bind
          (fun r => stm32f10x.IsPeripheralPoweredUp r a) = some true) ∧
      ((stm32f10x.PowerDownPeripheral regs a).bind
          (fun r => stm32f10x.IsPeripheralPoweredUp r a) = some false) ∧
      ((stm32f10x.PowerUpPeripheral regs a).bind
          (fun r => stm32f10x.IsPeripheralPoweredUp r b) =
        stm32f10x.IsPeripheralPoweredUp regs b) ∧
      ((stm32f10x.PowerDownPeripheral regs a).bind
          (fun r => stm32f10x.IsPeripheralPoweredUp r b) =
        stm32f10x.IsPeripheralPoweredUp regs b) ∧
      (stm32f10x.EnableRegisterIndex a ≠ stm32f10x.EnableRegisterIndex b ∨
        stm32f10x.EnableBitPosition a ≠ stm32f10x.EnableBitPosition b) := by
  intro regs a b ha hb hne
  obtain ⟨da⟩ := a
  obtain ⟨db⟩ := b
  have ha96 : da < 96 := by
    simpa [stm32f10x.Peripherals.kBeyond, stm32f10x.kBits] using ha
  have hb96 : db < 96 := by
    simpa [stm32f10x.Peripherals.kBeyond, stm32f10x.kBits] using hb
  have hne2 : da ≠ db := fun hcon => hne (by simp [hcon])
  have hpa : da % 32 < 32 := by omega
  have hpb : db % 32 < 32 := by omega
  have hga : da / 32 = 0 ∨ da / 32 = 1 ∨ da / 32 = 2 := by omega
  have hgb : db / 32 = 0 ∨ db / 32 = 1 ∨ db / 32 = 2 := by omega
  refine ⟨?_, ?_, ?_, ?_, ?_⟩
  · rcases hga with h | h | h <;>
      simp [stm32f10x.PowerUpPeripheral, stm32f10x.IsPeripheralPoweredUp,
        stm32f10x.EnableRegisterIndex, stm32f10x.EnableBitPosition,
        stm32f10x.kBits, stm32f10x.readEnableRegister,
        stm32f10x.writeEnableRegister, h, bit.readPos_setPos_self]
  · rcases hga with h | h | h <;>
      simp [stm32f10x.PowerDownPeripheral, stm32f10x.IsPeripheralPoweredUp,
        stm32f10x.EnableRegisterIndex, stm32f10x.EnableBitPosition,
        stm32f10x.kBits, stm32f10x.readEnableRegister,
        stm32f10x.writeEnableRegister, h] <;>
      exact bit.readPos_clearPos_self _ _ hpa
  · rcases hga with h1 | h1 | h1 <;> rcases hgb with h2 | h2 | h2 <;>
      simp [stm32f10x.PowerUpPeripheral, stm32f10x.IsPeripheralPoweredUp,
        stm32f10x.EnableRegisterIndex, stm32f10x.EnableBitPosition,
        stm32f10x.kBits, stm32f10x.readEnableRegister,
        stm32f10x.writeEnableRegister, h1, h2] <;>
      exact bit.readPos_setPos_ne _ _ _ (by omega)
  · rcases hga with h1 | h1 | h1 <;> rcases hgb with h2 | h2 | h2 <;>
      simp [stm32f10x.PowerDownPeripheral, stm32f10x.IsPeripheralPoweredUp,
        stm32f10x.EnableRegisterIndex, stm32f10x.EnableBitPosition,
        stm32f10x.kBits, stm32f10x.readEnableRegister,
        stm32f10x.writeEnableRegister, h1, h2] <;>
      exact bit.readPos_clearPos_ne _ _ _ (by omega) hpb
  · simp only [stm32f10x.EnableRegisterIndex, stm32f10x.EnableBitPosition,
      stm32f10x.kBits]
    omega

/-- C5 witness: the DMA 1 identity and the Timer 2 identity, which live
in different enable register banks. -/
theorem stm32_power_gating_bank_identities_witness :
    (stm32f10x.Peripherals.kDma1.device_id <
      stm32f10x.Peripherals.kBeyond) ∧
    (stm32f10x.Peripherals.kTimer2.device_id <
      stm32f10x.Peripherals.kBeyond) ∧
    (stm32f10x.Peripherals.kDma1.device_id ≠
      stm32f10x.Peripherals.kTimer2.device_id) ∧
    (((stm32f10x.PowerUpPeripheral ⟨0, 0, 0⟩
          stm32f10x.Peripherals.kDma1).bind
        (fun r => stm32f10x.IsPeripheralPoweredUp r
          stm32f10x.Peripherals.kDma1) = some true) ∧
      ((stm32f10x.PowerDownPeripheral ⟨0, 0, 0⟩
          stm32f10x.Peripherals.kDma1).bind
        (fun r => stm32f10x.IsPeripheralPoweredUp r
          stm32f10x.Peripherals.kDma1) = some false) ∧
      ((stm32f10x.PowerUpPeripheral ⟨0, 0, 0⟩
          stm32f10x.Peripherals.kDma1).bind
        (fun r => stm32f10x.IsPeripheralPoweredUp r
          stm32f10x.Peripherals.kTimer2) =
        stm32f10x.IsPeripheralPoweredUp ⟨0, 0, 0⟩
          stm32f10x.Peripherals.kTimer2) ∧
      ((stm32f10x.PowerDownPeripheral ⟨0, 0, 0⟩
          stm32f10x.Peripherals.kDma1).bind
        (fun r => stm32f10x.IsPeripheralPoweredUp r
          stm32f10x.Peripherals.kTimer2) =
        stm32f10x.IsPeripheralPoweredUp ⟨0, 0, 0⟩
          stm32f10x.Peripherals.kTimer2) ∧
      (stm32f10x.EnableRegisterIndex stm32f10x.Peripherals.kDma1 ≠
          stm32f10x.EnableRegisterIndex stm32f10x.Peripherals.kTimer2 ∨
        stm32f10x.EnableBitPosition stm32f10x.Peripherals.kDma1 ≠
          stm32f10x.EnableBitPosition stm32f10x.Peripherals.kTimer2)) :=
  ⟨by decide, by decide, by decide,
    stm32_power_gating_bank_identities_correct ⟨0, 0, 0⟩
      stm32f10x.Peripherals.kDma1 stm32f10x.Peripherals.kTimer2
      (by decide) (by decide) (by decide)⟩
